import Mathlib

/-!
Verification of the grasp-trial engine: a shallow embedding of the
repository's core Python modules (`core/performance_metrics.py`,
`grippers/manipulator_base.py`, `robots/gripper.py`,
`robots/gripper_factory.py`, `objects/object_factory.py`) together with
theorems settling the specification's claims about them.

Real-valued quantities are embedded as rationals; the physics engine's
side effects are embedded either as explicit command traces or as an
explicit joint-control state that the embedded methods transform.
-/

namespace GraspSim

/-- A 3-D position, as used for object/gripper base positions. -/
abbrev Vec3 := ℚ × ℚ × ℚ

/-- The Z component of a position (`position[2]` in the source). -/
def zOf (v : Vec3) : ℚ := v.2.2

/-! ## `core/performance_metrics.py` -/

/-- `PerformanceMetrics.column_names`: the CSV header fields, in source order. -/
def column_names : List String :=
  ["Position X", "Position Y", "Position Z",
   "Orientation Roll", "Orientation Pitch", "Orientation Yaw",
   "Initial Z", "Final Z", "Delta Z",
   "Success"]

/-- `PerformanceMetrics._initialize_csv`: the store file is a list of rows
(each row a list of string fields); `none` means the file does not exist.
If the file does not exist it is created holding exactly the header row,
otherwise it is left unchanged. -/
def initialize_csv (file : Option (List (List String))) : List (List String) :=
  match file with
  | none => [column_names]
  | some contents => contents

/-- `PerformanceMetrics.assess_grasp_quality`: given whether the physics
engine is connected (`p.isConnected()`), the recorded start position and
the position the engine would report for the target body, return
`(status_code, vertical_delta, end_position)` exactly as the source does. -/
def assess_grasp_quality (connected : Bool) (start_position end_position : Vec3) :
    ℕ × ℚ × Vec3 :=
  if !connected then
    (0, 0, start_position)
  else
    let z_initial := zOf start_position
    let z_final := zOf end_position
    let vertical_delta := z_final - z_initial
    let status_code :=
      if vertical_delta > 1/10 then 1
      else if 1/20 ≤ vertical_delta ∧ vertical_delta ≤ 1/10 then 2
      else 0
    (status_code, vertical_delta, end_position)

/-- `PerformanceMetrics.record_attempt`: the existing data rows are the
rows after the header; the (already stringified) record is appended iff it
does not exactly match an existing data row, otherwise the file is left
unchanged (the source prints a warning and skips the write). -/
def record_attempt (file : List (List String)) (metrics_data : List String) :
    List (List String) :=
  let existing_records := file.drop 1
  if metrics_data ∈ existing_records then file
  else file ++ [metrics_data]

/-! ## Vertical motion (`grippers/manipulator_base.py`, `robots/gripper.py`)

The physics-engine calls issued by the motion primitives are embedded as a
trace of commands. -/

/-- A physics-engine call issued by a vertical-motion primitive: resetting
the base linear velocity to `(0, 0, vz)`, or advancing one tick. -/
inductive SimCmd where
  | setLinearVelocity (vz : ℚ)
  | stepSimulation
  deriving DecidableEq, Repr

/-- `height_increment` of `ManipulatorInterface.execute_vertical_motion`:
`(target_height - initial_height) / motion_steps if motion_steps > 0 else 0.0`. -/
def height_increment (initial_height target_height : ℚ) (motion_steps : ℕ) : ℚ :=
  if motion_steps > 0 then (target_height - initial_height) / motion_steps else 0

/-- `vertical_velocity` of `execute_vertical_motion`:
`height_increment / step_time if step_time > 0 else 0.0`. -/
def vertical_velocity (initial_height target_height : ℚ) (motion_steps : ℕ)
    (step_time : ℚ) : ℚ :=
  if step_time > 0 then
    height_increment initial_height target_height motion_steps / step_time
  else 0

/-- `ManipulatorInterface.execute_vertical_motion`: per loop iteration it
resets the base velocity to the computed vertical velocity and advances one
tick, for `motion_steps` iterations, then unconditionally resets the
velocity to zero. -/
def execute_vertical_motion (initial_height target_height : ℚ) (motion_steps : ℕ)
    (step_time : ℚ) : List SimCmd :=
  (List.replicate motion_steps
    [SimCmd.setLinearVelocity
       (vertical_velocity initial_height target_height motion_steps step_time),
     SimCmd.stepSimulation]).flatten
  ++ [SimCmd.setLinearVelocity 0]

/-- `delta_z` of `BaseGripper.move_up_smoothly`:
`(target_z - start_z) / steps if steps > 0 else 0.0`. -/
def delta_z (start_z target_z : ℚ) (steps : ℕ) : ℚ :=
  if steps > 0 then (target_z - start_z) / steps else 0

/-- `velocity` of `BaseGripper.move_up_smoothly`:
`delta_z / delay if delay > 0 else 0.0`. -/
def velocity (start_z target_z : ℚ) (steps : ℕ) (delay : ℚ) : ℚ :=
  if delay > 0 then delta_z start_z target_z steps / delay else 0

/-- `BaseGripper.move_up_smoothly`: same loop structure as
`execute_vertical_motion`, ending with an unconditional velocity reset. -/
def move_up_smoothly (start_z target_z : ℚ) (steps : ℕ) (delay : ℚ) : List SimCmd :=
  (List.replicate steps
    [SimCmd.setLinearVelocity (velocity start_z target_z steps delay),
     SimCmd.stepSimulation]).flatten
  ++ [SimCmd.setLinearVelocity 0]

/-! ## Joint motor control (`grippers/manipulator_base.py`, `robots/gripper.py`)

Opening and closing a gripper issues `setJointMotorControl2` and
`changeDynamics` calls; their cumulative effect is modelled as a state
holding, per joint index, the position-control target, the applied motor
force, and the lateral friction coefficient.  The interleaved
`stepSimulation`/`time.sleep` pacing calls do not change this state and
are not modelled. -/

/-- The per-joint control state of one gripper body. -/
@[ext]
structure JointState where
  jointTarget : ℕ → ℚ
  jointForce : ℕ → ℚ
  lateralFriction : ℕ → ℚ

/-- A joint-level physics-engine call: `p.setJointMotorControl2(...,
POSITION_CONTROL, targetPosition, force)` or `p.changeDynamics(...,
lateralFriction=μ)`. -/
inductive JCmd where
  | setMotor (jointIndex : ℕ) (targetPosition force : ℚ)
  | setFriction (jointIndex : ℕ) (μ : ℚ)
  deriving DecidableEq

/-- Effect of one joint-level call on the control state. -/
def applyCmd (s : JointState) : JCmd → JointState
  | .setMotor k t f =>
    { s with
      jointTarget := fun j => if j = k then t else s.jointTarget j,
      jointForce := fun j => if j = k then f else s.jointForce j }
  | .setFriction k μ =>
    { s with lateralFriction := fun j => if j = k then μ else s.lateralFriction j }

/-- Effect of a sequence of joint-level calls, first to last. -/
def applyCmds (s : JointState) (cs : List JCmd) : JointState :=
  cs.foldl applyCmd s

/-- `TwoFingerManipulator.activate`: `zip(movable_joints, [0.548, 0.548])`,
each pair issuing a position-control call with force 500. -/
def twoFinger_activate_cmds (movable_joints : List ℕ) : List JCmd :=
  (movable_joints.zip [(0.548 : ℚ), 0.548]).map fun ja => .setMotor ja.1 ja.2 500

def twoFinger_activate (movable_joints : List ℕ) (s : JointState) : JointState :=
  applyCmds s (twoFinger_activate_cmds movable_joints)

/-- `TwoFingerManipulator.deactivate`: `zip(movable_joints, [0.0, 0.0])`,
each pair issuing a position-control call with force 500; no friction
change. -/
def twoFinger_deactivate_cmds (movable_joints : List ℕ) : List JCmd :=
  (movable_joints.zip [(0 : ℚ), 0]).map fun ja => .setMotor ja.1 ja.2 500

def twoFinger_deactivate (movable_joints : List ℕ) (s : JointState) : JointState :=
  applyCmds s (twoFinger_deactivate_cmds movable_joints)

/-- `PR2Gripper.open_gripper`: `zip(open_positions, active_joints)` with
open position 0.548 and force 100 (the trailing `sim_step` issues no
joint-level call). -/
def pr2_open_gripper_cmds (active_joints : List ℕ) : List JCmd :=
  (([0.548, 0.548] : List ℚ).zip active_joints).map fun tj => .setMotor tj.2 tj.1 100

def pr2_open_gripper (active_joints : List ℕ) (s : JointState) : JointState :=
  applyCmds s (pr2_open_gripper_cmds active_joints)

/-- `PR2Gripper.close_gripper`: `zip(close_positions, active_joints)` with
close position 0.0 and force 500, followed by a `changeDynamics` call
raising `lateralFriction` to 1.0 on every active joint. -/
def pr2_close_gripper_cmds (active_joints : List ℕ) : List JCmd :=
  ((([0, 0] : List ℚ).zip active_joints).map fun tj => .setMotor tj.2 tj.1 500)
  ++ (active_joints.map fun k => .setFriction k 1)

def pr2_close_gripper (active_joints : List ℕ) (s : JointState) : JointState :=
  applyCmds s (pr2_close_gripper_cmds active_joints)

/-- `SDHGripper.open_gripper`: every active joint driven to -0.5 with
force 100. -/
def sdh_open_gripper_cmds (active_joints : List ℕ) : List JCmd :=
  active_joints.map fun k => .setMotor k (-0.5) 100

def sdh_open_gripper (active_joints : List ℕ) (s : JointState) : JointState :=
  applyCmds s (sdh_open_gripper_cmds active_joints)

/-- `SDHGripper.close_gripper`: per active joint, a position-control call
to target 1.0 with force 500 immediately followed by a `changeDynamics`
call raising `lateralFriction` to 1.0 on that joint. -/
def sdh_close_gripper_cmds (active_joints : List ℕ) : List JCmd :=
  (active_joints.map fun k => [JCmd.setMotor k 1 500, JCmd.setFriction k 1]).flatten

def sdh_close_gripper (active_joints : List ℕ) (s : JointState) : JointState :=
  applyCmds s (sdh_close_gripper_cmds active_joints)

/-- `CustomGripper.open_gripper`: prints a message and does nothing. -/
def custom_open_gripper (s : JointState) : JointState := s

/-- `CustomGripper.close_gripper`: prints a message and does nothing. -/
def custom_close_gripper (s : JointState) : JointState := s

/-- The last `setMotor` write to joint `j` in a command list, if any. -/
def lastMotor (cs : List JCmd) (j : ℕ) : Option (ℚ × ℚ) :=
  match cs with
  | [] => none
  | c :: rest =>
    match lastMotor rest j with
    | some v => some v
    | none =>
      match c with
      | .setMotor k t f => if k = j then some (t, f) else none
      | .setFriction _ _ => none

/-- The last `setFriction` write to joint `j` in a command list, if any. -/
def lastFriction (cs : List JCmd) (j : ℕ) : Option ℚ :=
  match cs with
  | [] => none
  | c :: rest =>
    match lastFriction rest j with
    | some v => some v
    | none =>
      match c with
      | .setMotor _ _ _ => none
      | .setFriction k μ => if k = j then some μ else none

/-- A concrete control state used to exhibit counterexamples. -/
def sampleState : JointState :=
  { jointTarget := fun _ => 1, jointForce := fun _ => 0, lateralFriction := fun _ => 1/2 }

/-! ## Factories (`robots/gripper_factory.py`, `robots/gripper.py`,
`objects/object_factory.py`)

Construction is modelled as the list of physics resources the dispatched
constructor allocates, paired with the dispatch outcome (`Except.error`
models the raised ValueError). -/

/-- Python's `str.lower()` as used on the ASCII variant tags
(`gripper_type.lower()` / `object_type.lower()`): lowercase every
character. -/
def str_lower (s : String) : String := ⟨s.data.map Char.toLower⟩

/-- The supported gripper variants. -/
inductive GripperKind where
  | pr2
  | sdh
  | custom
  deriving DecidableEq, Repr

/-- The supported graspable-object variants. -/
inductive ObjectKind where
  | cuboid
  | cylinder
  deriving DecidableEq, Repr

/-- URDF model loaded by the variant's constructor (`p.loadURDF` in
`BaseGripper.__init__`; the SDH path is resolved relative to the repo). -/
def gripper_model_loads : GripperKind → List String
  | .pr2 => ["pr2_gripper.urdf"]
  | .sdh => ["models/sdh.urdf"]
  | .custom => ["custom_gripper.urdf"]

/-- Physics body created by the object variant's constructor
(`BaseObject._create_object` calls `p.createMultiBody` once). -/
def object_body_creations : ObjectKind → List String
  | .cuboid => ["createMultiBody"]
  | .cylinder => ["createMultiBody"]

/-- `GripperFactory.create_gripper`: lowercases the tag, dispatches to the
matching constructor (whose physics side effect is the returned load
list), or raises ValueError with no physics side effect at all. -/
def create_gripper (gripper_type : String) : List String × Except String GripperKind :=
  let t := str_lower gripper_type
  if t = "pr2" then (gripper_model_loads .pr2, .ok .pr2)
  else if t = "sdh" then (gripper_model_loads .sdh, .ok .sdh)
  else if t = "custom" then (gripper_model_loads .custom, .ok .custom)
  else ([], .error ("Unsupported gripper type: '" ++ t
    ++ "'. Supported types: 'pr2', 'sdh', 'custom'"))

/-- Module-level `select_gripper` in `robots/gripper.py`: same dispatch
as the factory but case-sensitive (no lowercasing) and with a different
ValueError message. -/
def select_gripper (gripper_type : String) : List String × Except String GripperKind :=
  if gripper_type = "pr2" then (gripper_model_loads .pr2, .ok .pr2)
  else if gripper_type = "sdh" then (gripper_model_loads .sdh, .ok .sdh)
  else if gripper_type = "custom" then (gripper_model_loads .custom, .ok .custom)
  else ([], .error "Unsupported gripper type. Supported types: 'pr2', 'sdh', 'custom'.")

/-- `ObjectFactory.create_object`: lowercases the tag and dispatches, or
raises ValueError before any physics body is created. -/
def create_object (object_type : String) : List String × Except String ObjectKind :=
  let t := str_lower object_type
  if t = "cuboid" then (object_body_creations .cuboid, .ok .cuboid)
  else if t = "cylinder" then (object_body_creations .cylinder, .ok .cylinder)
  else ([], .error ("Unsupported object type: '" ++ t
    ++ "'. Supported types: 'cuboid', 'cylinder'"))

end GraspSim

namespace GraspSim

/-! ## Claims C1, C2, C8, C3 -/

/-- Unfolding equation for `assess_grasp_quality` in the connected case. -/
theorem assess_grasp_quality_connected_eq (sp ep : Vec3) :
    assess_grasp_quality true sp ep =
      ((if zOf ep - zOf sp > 1/10 then (1 : ℕ)
        else if 1/20 ≤ zOf ep - zOf sp ∧ zOf ep - zOf sp ≤ 1/10 then 2 else 0),
       zOf ep - zOf sp, ep) := rfl

/-- C1: while the engine is connected, `assess_grasp_quality` returns
delta = final_z - initial_z together with the read final position, and
classifies Success (1) iff delta > 0.1, Partial (2) iff
0.05 ≤ delta ≤ 0.1, and Failure (0) otherwise; in particular both
boundary values 0.05 and 0.1 classify as Partial. -/
theorem assess_grasp_quality_classification
    (startPos endPos : Vec3) (connected : Bool) (h : connected = true) :
    ∃ status : ℕ, ∃ delta : ℚ,
      assess_grasp_quality connected startPos endPos = (status, delta, endPos) ∧
      delta = zOf endPos - zOf startPos ∧
      (status = 1 ↔ delta > 1/10) ∧
      (status = 2 ↔ 1/20 ≤ delta ∧ delta ≤ 1/10) ∧
      (status = 0 ↔ ¬(delta > 1/10) ∧ ¬(1/20 ≤ delta ∧ delta ≤ 1/10)) := by
  subst h
  refine ⟨_, _, assess_grasp_quality_connected_eq startPos endPos, rfl, ?_, ?_, ?_⟩
  · constructor
    · intro hs
      split_ifs at hs with h1 h2 <;>
        first
          | exact absurd hs (by omega)
          | exact h1
    · intro hd
      rw [if_pos hd]
  · constructor
    · intro hs
      split_ifs at hs with h1 h2 <;>
        first
          | exact absurd hs (by omega)
          | exact h2
    · intro hd
      rw [if_neg (not_lt.mpr hd.2), if_pos hd]
  · constructor
    · intro hs
      split_ifs at hs with h1 h2 <;>
        first
          | exact absurd hs (by omega)
          | exact ⟨h1, h2⟩
    · intro hab
      rw [if_neg hab.1, if_neg hab.2]

/-- Witness for C1: at start z = 0, a final z of 0.05 classifies as
Partial (2), and a final z of 0.1 also classifies as Partial. -/
theorem assess_grasp_quality_classification_witness :
    (assess_grasp_quality true (0, 0, 0) (0, 0, 1/20)).1 = 2 ∧
    (assess_grasp_quality true (0, 0, 0) (0, 0, 1/10)).1 = 2 := by
  constructor
  · obtain ⟨s, d, heq, hd, _, hB, _⟩ :=
      assess_grasp_quality_classification (0, 0, 0) (0, 0, 1/20) true rfl
    rw [heq]
    exact hB.mpr (by rw [hd]; norm_num [zOf])
  · obtain ⟨s, d, heq, hd, _, hB, _⟩ :=
      assess_grasp_quality_classification (0, 0, 0) (0, 0, 1/10) true rfl
    rw [heq]
    exact hB.mpr (by rw [hd]; norm_num [zOf])

/-- C2: if the engine reports itself disconnected, `assess_grasp_quality`
returns status Failure (0), delta exactly 0, and the unchanged start
position as the final position. -/
theorem assess_grasp_quality_disconnected (startPos endPos : Vec3) :
    assess_grasp_quality false startPos endPos = (0, 0, startPos) := by
  rfl

/-- C8: constructing the store when the file does not exist creates it
holding exactly one row, the header in the exact source order; when the
file exists its contents are left unchanged. -/
theorem initialize_csv_spec :
    initialize_csv none =
      [["Position X", "Position Y", "Position Z",
        "Orientation Roll", "Orientation Pitch", "Orientation Yaw",
        "Initial Z", "Final Z", "Delta Z",
        "Success"]] ∧
    (initialize_csv none).length = 1 ∧
    ∀ contents, initialize_csv (some contents) = contents := by
  refine ⟨rfl, rfl, fun contents => rfl⟩

/-- C3: against a store with a header row and at most one existing copy
of the record, calling `record_attempt` twice leaves exactly one data
row equal to the record (the second call writes nothing); and any record
differing from every existing data row is appended. -/
theorem record_attempt_dedup (file : List (List String)) (r : List String)
    (hhead : 1 ≤ file.length) (hdup : (file.drop 1).count r ≤ 1) :
    ((record_attempt (record_attempt file r) r).drop 1).count r = 1 ∧
    record_attempt (record_attempt file r) r = record_attempt file r ∧
    (∀ r', r' ∉ file.drop 1 → record_attempt file r' = file ++ [r']) := by
  have happend : ∀ r', r' ∉ file.drop 1 → record_attempt file r' = file ++ [r'] := by
    intro r' h
    simp only [record_attempt]
    rw [if_neg h]
  by_cases hmem : r ∈ file.drop 1
  · have hskip : record_attempt file r = file := by
      simp only [record_attempt]
      rw [if_pos hmem]
    have hcount : (file.drop 1).count r = 1 :=
      Nat.le_antisymm hdup (List.count_pos_iff.mpr hmem)
    rw [hskip, hskip]
    exact ⟨hcount, rfl, happend⟩
  · have h1 : record_attempt file r = file ++ [r] := happend r hmem
    have hdrop : (file ++ [r]).drop 1 = file.drop 1 ++ [r] := by
      rcases file with _ | ⟨a, rest⟩
      · simp at hhead
      · simp
    have hmem2 : r ∈ (file ++ [r]).drop 1 := by
      rw [hdrop]; simp
    have h2 : record_attempt (file ++ [r]) r = file ++ [r] := by
      simp only [record_attempt]
      rw [if_pos hmem2]
    refine ⟨?_, by rw [h1, h2], happend⟩
    rw [h1, h2, hdrop, List.count_append]
    rw [List.count_eq_zero.mpr hmem]
    simp

/-- Witness for C3: twice recording a fresh row against a freshly
initialized store leaves exactly one matching data row. -/
theorem record_attempt_dedup_witness :
    1 ≤ (initialize_csv none).length ∧
    ((initialize_csv none).drop 1).count ["0"] ≤ 1 ∧
    ((record_attempt (record_attempt (initialize_csv none) ["0"]) ["0"]).drop 1).count
      ["0"] = 1 := by
  refine ⟨by decide, by decide, ?_⟩
  exact (record_attempt_dedup (initialize_csv none) ["0"] (by decide) (by decide)).1

/-! ## Claims C4 and C10 -/

/-- Counterexample to C4 as stated: with current z = 0, target height 1,
2 steps and step time 0.01, the commanded velocity is
`((1 - 0) / 2) / 0.01 = 50`, not `(1 - 0) / 2` as the claim says, so the
trace differs from the claimed one. -/
theorem execute_vertical_motion_velocity_counterexample :
    execute_vertical_motion 0 1 2 (1/100) ≠
      (List.replicate 2
        [SimCmd.setLinearVelocity ((1 - 0) / 2), SimCmd.stepSimulation]).flatten
      ++ [SimCmd.setLinearVelocity 0] := by
  intro h
  have hv : vertical_velocity 0 1 2 (1/100) = 50 := by
    unfold vertical_velocity height_increment
    norm_num
  have hh := congrArg List.head? h
  simp only [execute_vertical_motion, hv, List.replicate, List.flatten_cons,
    List.cons_append, List.head?_cons, Option.some.injEq,
    SimCmd.setLinearVelocity.injEq] at hh
  norm_num at hh

/-- C4 (amended): for steps > 0 and step_time > 0, the vertical-motion
primitive commands the constant velocity
`((target_height - current_z) / steps) / step_time` — the per-step height
increment divided by the step time — as a velocity target for exactly
`steps` ticks, then forces the velocity to zero; `move_up_smoothly`
behaves identically. -/
theorem execute_vertical_motion_amended (z0 target : ℚ) (steps : ℕ) (step_time : ℚ)
    (hs : 0 < steps) (ht : 0 < step_time) :
    execute_vertical_motion z0 target steps step_time =
      (List.replicate steps
        [SimCmd.setLinearVelocity (((target - z0) / steps) / step_time),
         SimCmd.stepSimulation]).flatten
      ++ [SimCmd.setLinearVelocity 0] ∧
    move_up_smoothly z0 target steps step_time =
      execute_vertical_motion z0 target steps step_time := by
  constructor
  · unfold execute_vertical_motion vertical_velocity height_increment
    rw [if_pos ht, if_pos hs]
  · unfold move_up_smoothly execute_vertical_motion velocity vertical_velocity
      delta_z height_increment
    rfl

/-- Witness for C4 (amended): at z = 0, target 1, 2 steps of 0.01 s the
trace is two (velocity 50, tick) pairs followed by the zero reset. -/
theorem execute_vertical_motion_amended_witness :
    (0 : ℕ) < 2 ∧ (0 : ℚ) < 1/100 ∧
    execute_vertical_motion 0 1 2 (1/100) =
      (List.replicate 2
        [SimCmd.setLinearVelocity (((1 - 0) / 2) / (1/100)), SimCmd.stepSimulation]).flatten
      ++ [SimCmd.setLinearVelocity 0] :=
  ⟨by decide, by norm_num,
   (execute_vertical_motion_amended 0 1 2 (1/100) (by decide) (by norm_num)).1⟩

/-- C10: the vertical-motion primitives are total in their step
parameters: with 0 steps the height increment is 0, with step time 0 the
commanded velocity is 0 (in both primitives), and the trace always ends
with the unconditional reset of the velocity to zero. -/
theorem vertical_motion_total (z0 target step_time : ℚ) (steps : ℕ) :
    height_increment z0 target 0 = 0 ∧
    vertical_velocity z0 target steps 0 = 0 ∧
    delta_z z0 target 0 = 0 ∧
    velocity z0 target steps 0 = 0 ∧
    (execute_vertical_motion z0 target steps step_time).getLast?
      = some (SimCmd.setLinearVelocity 0) ∧
    (move_up_smoothly z0 target steps step_time).getLast?
      = some (SimCmd.setLinearVelocity 0) := by
  refine ⟨by simp [height_increment], by simp [vertical_velocity],
    by simp [delta_z], by simp [velocity], ?_, ?_⟩
  · unfold execute_vertical_motion
    rw [List.getLast?_concat]
  · unfold move_up_smoothly
    rw [List.getLast?_concat]

/-! ## Joint-state lemmas -/

theorem applyCmds_jointTarget (cs : List JCmd) (s : JointState) (j : ℕ) :
    (applyCmds s cs).jointTarget j
      = ((lastMotor cs j).map Prod.fst).getD (s.jointTarget j) := by
  induction cs generalizing s with
  | nil => rfl
  | cons c cs ih =>
    have hstep : applyCmds s (c :: cs) = applyCmds (applyCmd s c) cs := rfl
    rw [hstep, ih]
    rcases hlm : lastMotor cs j with _ | v
    · cases c with
      | setMotor k t f =>
        simp only [lastMotor, hlm, applyCmd]
        by_cases hk : k = j
        · subst hk
          simp
        · simp [hk, Ne.symm hk]
      | setFriction k μ =>
        simp [lastMotor, hlm, applyCmd]
    · simp [lastMotor, hlm]

theorem applyCmds_jointForce (cs : List JCmd) (s : JointState) (j : ℕ) :
    (applyCmds s cs).jointForce j
      = ((lastMotor cs j).map Prod.snd).getD (s.jointForce j) := by
  induction cs generalizing s with
  | nil => rfl
  | cons c cs ih =>
    have hstep : applyCmds s (c :: cs) = applyCmds (applyCmd s c) cs := rfl
    rw [hstep, ih]
    rcases hlm : lastMotor cs j with _ | v
    · cases c with
      | setMotor k t f =>
        simp only [lastMotor, hlm, applyCmd]
        by_cases hk : k = j
        · subst hk
          simp
        · simp [hk, Ne.symm hk]
      | setFriction k μ =>
        simp [lastMotor, hlm, applyCmd]
    · simp [lastMotor, hlm]

theorem applyCmds_lateralFriction (cs : List JCmd) (s : JointState) (j : ℕ) :
    (applyCmds s cs).lateralFriction j
      = (lastFriction cs j).getD (s.lateralFriction j) := by
  induction cs generalizing s with
  | nil => rfl
  | cons c cs ih =>
    have hstep : applyCmds s (c :: cs) = applyCmds (applyCmd s c) cs := rfl
    rw [hstep, ih]
    rcases hlf : lastFriction cs j with _ | v
    · cases c with
      | setMotor k t f =>
        simp [lastFriction, hlf, applyCmd]
      | setFriction k μ =>
        simp only [lastFriction, hlf, applyCmd]
        by_cases hk : k = j
        · subst hk
          simp
        · simp [hk, Ne.symm hk]
    · simp [lastFriction, hlf]

/-- Replaying the same sequence of joint-level calls is a no-op: the
resulting control state is determined by the last write per joint. -/
theorem applyCmds_idem (cs : List JCmd) (s : JointState) :
    applyCmds (applyCmds s cs) cs = applyCmds s cs := by
  refine JointState.ext ?_ ?_ ?_
  · funext j
    rw [applyCmds_jointTarget, applyCmds_jointTarget]
    cases lastMotor cs j <;> simp
  · funext j
    rw [applyCmds_jointForce, applyCmds_jointForce]
    cases lastMotor cs j <;> simp
  · funext j
    rw [applyCmds_lateralFriction, applyCmds_lateralFriction]
    cases lastFriction cs j <;> simp

theorem lastMotor_cons (c : JCmd) (rest : List JCmd) (j : ℕ) :
    lastMotor (c :: rest) j
      = match lastMotor rest j with
        | some v => some v
        | none =>
          match c with
          | .setMotor k t f => if k = j then some (t, f) else none
          | .setFriction _ _ => none := rfl

theorem lastFriction_cons (c : JCmd) (rest : List JCmd) (j : ℕ) :
    lastFriction (c :: rest) j
      = match lastFriction rest j with
        | some v => some v
        | none =>
          match c with
          | .setMotor _ _ _ => none
          | .setFriction k μ => if k = j then some μ else none := rfl

theorem lastMotor_append (cs ds : List JCmd) (j : ℕ) :
    lastMotor (cs ++ ds) j = (lastMotor ds j).elim (lastMotor cs j) some := by
  induction cs with
  | nil =>
    simp only [List.nil_append]
    cases lastMotor ds j <;> rfl
  | cons c cs ih =>
    rw [List.cons_append, lastMotor_cons, ih, lastMotor_cons]
    cases lastMotor ds j <;> cases lastMotor cs j <;> rfl

theorem lastFriction_append (cs ds : List JCmd) (j : ℕ) :
    lastFriction (cs ++ ds) j = (lastFriction ds j).elim (lastFriction cs j) some := by
  induction cs with
  | nil =>
    simp only [List.nil_append]
    cases lastFriction ds j <;> rfl
  | cons c cs ih =>
    rw [List.cons_append, lastFriction_cons, ih, lastFriction_cons]
    cases lastFriction ds j <;> cases lastFriction cs j <;> rfl

theorem lastMotor_map_setMotor (l : List ℕ) (t f : ℚ) (j : ℕ) :
    lastMotor (l.map fun k => JCmd.setMotor k t f) j
      = if j ∈ l then some (t, f) else none := by
  induction l with
  | nil => rfl
  | cons k l ih =>
    rw [List.map_cons, lastMotor_cons, ih]
    by_cases hmem : j ∈ l
    · simp [hmem]
    · by_cases hk : k = j
      · simp [hmem, hk]
      · simp [hmem, hk, Ne.symm hk]

theorem lastFriction_map_setMotor (l : List ℕ) (t f : ℚ) (j : ℕ) :
    lastFriction (l.map fun k => JCmd.setMotor k t f) j = none := by
  induction l with
  | nil => rfl
  | cons k l ih =>
    rw [List.map_cons, lastFriction_cons, ih]

theorem lastMotor_map_setFriction (l : List ℕ) (μ : ℚ) (j : ℕ) :
    lastMotor (l.map fun k => JCmd.setFriction k μ) j = none := by
  induction l with
  | nil => rfl
  | cons k l ih =>
    rw [List.map_cons, lastMotor_cons, ih]

theorem lastFriction_map_setFriction (l : List ℕ) (μ : ℚ) (j : ℕ) :
    lastFriction (l.map fun k => JCmd.setFriction k μ) j
      = if j ∈ l then some μ else none := by
  induction l with
  | nil => rfl
  | cons k l ih =>
    rw [List.map_cons, lastFriction_cons, ih]
    by_cases hmem : j ∈ l
    · simp [hmem]
    · by_cases hk : k = j
      · simp [hmem, hk]
      · simp [hmem, hk, Ne.symm hk]

theorem lastMotor_sdh_close (l : List ℕ) (j : ℕ) :
    lastMotor (sdh_close_gripper_cmds l) j = if j ∈ l then some (1, 500) else none := by
  induction l with
  | nil => rfl
  | cons k l ih =>
    unfold sdh_close_gripper_cmds at ih ⊢
    rw [List.map_cons, List.flatten_cons, List.cons_append, List.cons_append,
      List.nil_append, lastMotor_cons, lastMotor_cons, ih]
    by_cases hmem : j ∈ l
    · simp [hmem]
    · by_cases hk : k = j
      · simp [hmem, hk]
      · simp [hmem, hk, Ne.symm hk]

theorem lastFriction_sdh_close (l : List ℕ) (j : ℕ) :
    lastFriction (sdh_close_gripper_cmds l) j = if j ∈ l then some 1 else none := by
  induction l with
  | nil => rfl
  | cons k l ih =>
    unfold sdh_close_gripper_cmds at ih ⊢
    rw [List.map_cons, List.flatten_cons, List.cons_append, List.cons_append,
      List.nil_append, lastFriction_cons, lastFriction_cons, ih]
    by_cases hmem : j ∈ l
    · simp [hmem]
    · by_cases hk : k = j
      · simp [hmem, hk]
      · simp [hmem, hk, Ne.symm hk]

theorem twoFinger_activate_cmds_eq (mov : List ℕ) :
    twoFinger_activate_cmds mov
      = (mov.take 2).map fun k => JCmd.setMotor k 0.548 500 := by
  rcases mov with _ | ⟨a, _ | ⟨b, rest⟩⟩ <;> simp [twoFinger_activate_cmds]

theorem twoFinger_deactivate_cmds_eq (mov : List ℕ) :
    twoFinger_deactivate_cmds mov
      = (mov.take 2).map fun k => JCmd.setMotor k 0 500 := by
  rcases mov with _ | ⟨a, _ | ⟨b, rest⟩⟩ <;> simp [twoFinger_deactivate_cmds]

theorem pr2_close_gripper_cmds_eq (act : List ℕ) :
    pr2_close_gripper_cmds act
      = ((act.take 2).map fun k => JCmd.setMotor k 0 500)
        ++ (act.map fun k => JCmd.setFriction k 1) := by
  rcases act with _ | ⟨a, _ | ⟨b, rest⟩⟩ <;> simp [pr2_close_gripper_cmds]

/-! ## Claims C7 and C5 -/

/-- C7: for every manipulator variant, activating (opening) twice in
succession leaves the same control state — hence the same actuated-joint
target state — as activating once. -/
theorem activate_idempotent (movable_joints active_joints : List ℕ) (s : JointState) :
    twoFinger_activate movable_joints (twoFinger_activate movable_joints s)
      = twoFinger_activate movable_joints s ∧
    pr2_open_gripper active_joints (pr2_open_gripper active_joints s)
      = pr2_open_gripper active_joints s ∧
    sdh_open_gripper active_joints (sdh_open_gripper active_joints s)
      = sdh_open_gripper active_joints s ∧
    custom_open_gripper (custom_open_gripper s) = custom_open_gripper s :=
  ⟨applyCmds_idem _ _, applyCmds_idem _ _, applyCmds_idem _ _, rfl⟩

/-- Counterexample to C5 as stated: `TwoFingerManipulator.deactivate`
leaves the lateral friction of its actuated joints unchanged (here at
0.5, in particular not raised to the 1.0 the other closers use), and the
placeholder `CustomGripper.close_gripper` changes nothing at all. -/
theorem deactivate_friction_counterexample :
    (twoFinger_deactivate [0, 1] sampleState).lateralFriction 0
      = sampleState.lateralFriction 0 ∧
    (twoFinger_deactivate [0, 1] sampleState).lateralFriction 0 ≠ 1 ∧
    custom_close_gripper sampleState = sampleState := by
  refine ⟨rfl, ?_, rfl⟩
  have h : (twoFinger_deactivate [0, 1] sampleState).lateralFriction 0 = 1/2 := rfl
  rw [h]
  norm_num

/-- C5 (amended): every deactivate/close variant drives its actuated
joints (those paired with a closed-angle entry) to the closed target
configuration, and is safely repeatable — closing an already-closed
manipulator is a no-op; but only `PR2Gripper.close_gripper` and
`SDHGripper.close_gripper` raise the lateral friction (to 1.0) on the
actuated joints, while `TwoFingerManipulator.deactivate` leaves friction
unchanged and the placeholder `CustomGripper.close_gripper` does
nothing. -/
theorem deactivate_amended (mov act : List ℕ) (s : JointState) :
    (∀ j ∈ mov.take 2, (twoFinger_deactivate mov s).jointTarget j = 0) ∧
    (twoFinger_deactivate mov s).lateralFriction = s.lateralFriction ∧
    (∀ j ∈ act.take 2, (pr2_close_gripper act s).jointTarget j = 0) ∧
    (∀ j ∈ act, (pr2_close_gripper act s).lateralFriction j = 1) ∧
    (∀ j ∈ act, (sdh_close_gripper act s).jointTarget j = 1) ∧
    (∀ j ∈ act, (sdh_close_gripper act s).lateralFriction j = 1) ∧
    twoFinger_deactivate mov (twoFinger_deactivate mov s)
      = twoFinger_deactivate mov s ∧
    pr2_close_gripper act (pr2_close_gripper act s) = pr2_close_gripper act s ∧
    sdh_close_gripper act (sdh_close_gripper act s) = sdh_close_gripper act s ∧
    custom_close_gripper s = s := by
  refine ⟨?_, ?_, ?_, ?_, ?_, ?_,
    applyCmds_idem _ _, applyCmds_idem _ _, applyCmds_idem _ _, rfl⟩
  · intro j hj
    unfold twoFinger_deactivate
    rw [applyCmds_jointTarget, twoFinger_deactivate_cmds_eq, lastMotor_map_setMotor,
      if_pos hj]
    rfl
  · funext j
    unfold twoFinger_deactivate
    rw [applyCmds_lateralFriction, twoFinger_deactivate_cmds_eq,
      lastFriction_map_setMotor]
    rfl
  · intro j hj
    unfold pr2_close_gripper
    rw [applyCmds_jointTarget, pr2_close_gripper_cmds_eq, lastMotor_append,
      lastMotor_map_setFriction]
    simp only [Option.elim]
    rw [lastMotor_map_setMotor, if_pos hj]
    rfl
  · intro j hj
    unfold pr2_close_gripper
    rw [applyCmds_lateralFriction, pr2_close_gripper_cmds_eq, lastFriction_append,
      lastFriction_map_setFriction, if_pos hj]
    rfl
  · intro j hj
    unfold sdh_close_gripper
    rw [applyCmds_jointTarget, lastMotor_sdh_close, if_pos hj]
    rfl
  · intro j hj
    unfold sdh_close_gripper
    rw [applyCmds_lateralFriction, lastFriction_sdh_close, if_pos hj]
    rfl

/-- Witness for C5 (amended): on concrete joint lists,
`TwoFingerManipulator.deactivate` drives joint 4 to target 0 and
`PR2Gripper.close_gripper` raises joint 6's friction to 1. -/
theorem deactivate_amended_witness :
    4 ∈ ([4, 5] : List ℕ).take 2 ∧
    (twoFinger_deactivate [4, 5] sampleState).jointTarget 4 = 0 ∧
    6 ∈ ([6, 7, 8] : List ℕ) ∧
    (pr2_close_gripper [6, 7, 8] sampleState).lateralFriction 6 = 1 := by
  have h := deactivate_amended [4, 5] [6, 7, 8] sampleState
  exact ⟨by decide, h.1 4 (by decide), by decide, h.2.2.2.1 6 (by decide)⟩

/-! ## Claims C6 and C9 -/

/-- C6: a tag whose lowercase form is not a supported variant makes both
factories raise ValueError with no model loaded and no physics body
created; a tag whose lowercase form is supported dispatches without error
to the corresponding variant's constructor. -/
theorem factory_unknown_tag_rejected (gt ot : String)
    (hg : str_lower gt ∉ (["pr2", "sdh", "custom"] : List String))
    (ho : str_lower ot ∉ (["cuboid", "cylinder"] : List String)) :
    ((create_gripper gt).1 = [] ∧ ∃ msg, (create_gripper gt).2 = .error msg) ∧
    ((create_object ot).1 = [] ∧ ∃ msg, (create_object ot).2 = .error msg) ∧
    (∀ s : String, str_lower s = "pr2" →
      create_gripper s = (gripper_model_loads .pr2, .ok .pr2)) ∧
    (∀ s : String, str_lower s = "sdh" →
      create_gripper s = (gripper_model_loads .sdh, .ok .sdh)) ∧
    (∀ s : String, str_lower s = "custom" →
      create_gripper s = (gripper_model_loads .custom, .ok .custom)) ∧
    (∀ s : String, str_lower s = "cuboid" →
      create_object s = (object_body_creations .cuboid, .ok .cuboid)) ∧
    (∀ s : String, str_lower s = "cylinder" →
      create_object s = (object_body_creations .cylinder, .ok .cylinder)) := by
  obtain ⟨hg1, hg2, hg3⟩ :
      str_lower gt ≠ "pr2" ∧ str_lower gt ≠ "sdh" ∧ str_lower gt ≠ "custom" := by
    simpa using hg
  obtain ⟨ho1, ho2⟩ : str_lower ot ≠ "cuboid" ∧ str_lower ot ≠ "cylinder" := by
    simpa using ho
  refine ⟨?_, ?_, ?_, ?_, ?_, ?_, ?_⟩
  · simp only [create_gripper]
    rw [if_neg hg1, if_neg hg2, if_neg hg3]
    exact ⟨rfl, _, rfl⟩
  · simp only [create_object]
    rw [if_neg ho1, if_neg ho2]
    exact ⟨rfl, _, rfl⟩
  · intro s h
    simp only [create_gripper]
    rw [h, if_pos rfl]
  · intro s h
    simp only [create_gripper]
    rw [h, if_neg (by decide), if_pos rfl]
  · intro s h
    simp only [create_gripper]
    rw [h, if_neg (by decide), if_neg (by decide), if_pos rfl]
  · intro s h
    simp only [create_object]
    rw [h, if_pos rfl]
  · intro s h
    simp only [create_object]
    rw [h, if_neg (by decide), if_pos rfl]

/-- Witness for C6: the tags "abc" and "xyz" are rejected by both
factories with no physics side effect, and the supported tag "PR2"
dispatches to the PR2 variant. -/
theorem factory_unknown_tag_rejected_witness :
    str_lower "abc" ∉ (["pr2", "sdh", "custom"] : List String) ∧
    str_lower "xyz" ∉ (["cuboid", "cylinder"] : List String) ∧
    (create_gripper "abc").1 = [] ∧
    (create_object "xyz").1 = [] ∧
    create_gripper "PR2" = (gripper_model_loads .pr2, .ok .pr2) := by
  have h := factory_unknown_tag_rejected "abc" "xyz" (by decide) (by decide)
  exact ⟨by decide, by decide, h.1.1, h.2.1.1, h.2.2.1 "PR2" (by decide)⟩

/-- Counterexample to C9 as stated: on the tag "PR2" the factory method
(which lowercases) constructs the PR2 gripper while the module-level
`select_gripper` (which is case-sensitive) raises ValueError, so the two
do not behave identically for every gripper_type string. -/
theorem select_gripper_case_counterexample :
    (create_gripper "PR2").2.toOption = some GripperKind.pr2 ∧
    (select_gripper "PR2").2.toOption = none :=
  ⟨rfl, rfl⟩

/-- C9 (amended): on every tag equal to its own lowercase form,
`select_gripper` and `GripperFactory.create_gripper` behave identically —
same constructor side effects and either both construct the same variant
or both raise ValueError (their error messages differ); on mixed-case
supported tags the factory constructs while `select_gripper` raises. -/
theorem select_gripper_factory_agree (t : String) (h : str_lower t = t) :
    (select_gripper t).1 = (create_gripper t).1 ∧
    (select_gripper t).2.toOption = (create_gripper t).2.toOption := by
  simp only [select_gripper, create_gripper]
  rw [h]
  split_ifs <;> exact ⟨rfl, rfl⟩

/-- Witness for C9 (amended): on the lowercase tag "sdh" both paths
construct the SDH variant with the same model load. -/
theorem select_gripper_factory_agree_witness :
    str_lower "sdh" = "sdh" ∧
    (select_gripper "sdh").1 = (create_gripper "sdh").1 ∧
    (select_gripper "sdh").2.toOption = (create_gripper "sdh").2.toOption := by
  have h := select_gripper_factory_agree "sdh" (by decide)
  exact ⟨by decide, h.1, h.2⟩

end GraspSim
